import Mathlib

/-!
Verification of the DeepSentinel Opportunity Decision and Execution Pipeline.

The definitions below are a shallow embedding of the TypeScript backend:
the DecisionEngine (scoring, risk assessment, decision gate, trade-size
optimization, parameter tuning) and the ExecutionEngine (safety gate,
simulate-then-execute flow).  JavaScript numbers are modelled as exact
rationals; the one place where IEEE infinity semantics decide behaviour
(division by a nonpositive profit in the gas-risk assessment) uses an
explicit JavaScript-value type with infinities and NaN.
-/

namespace DeepSentinel

/-- Pool snapshot, from PoolData in types.ts. -/
structure PoolData where
  poolId : String
  tokenA : String
  tokenB : String
  priceA : ℚ
  priceB : ℚ
  liquidityA : ℚ
  liquidityB : ℚ
  lastUpdate : ℚ
deriving Repr, DecidableEq

/-- Arbitrage opportunity, from ArbitrageOpportunity in types.ts. -/
structure ArbitrageOpportunity where
  id : String
  poolA : PoolData
  poolB : PoolData
  spread : ℚ
  spreadPercentage : ℚ
  estimatedProfit : ℚ
  tradeAmount : ℚ
  gasEstimate : ℚ
  createdAt : ℚ
deriving Repr, DecidableEq

/-- Feature vector extracted from an opportunity, from OpportunityFeatures. -/
structure OpportunityFeatures where
  spreadPercentage : ℚ
  estimatedProfit : ℚ
  liquidity : ℚ
  volatility : ℚ
  profitToGasRatio : ℚ
  age : ℚ
deriving Repr, DecidableEq

/-- Score record, from OpportunityScore in types.ts. -/
structure OpportunityScore where
  overall : ℚ
  spread : ℚ
  liquidity : ℚ
  profit : ℚ
  risk : ℚ
  confidence : ℚ
  features : OpportunityFeatures
deriving Repr, DecidableEq

/-- Risk profile, from RiskProfile in types.ts.  Warning strings are kept
abstract since no decision reads their text. -/
structure RiskProfile where
  overall : ℚ
  liquidityRisk : ℚ
  slippageRisk : ℚ
  gasRisk : ℚ
  executionRisk : ℚ
  isAcceptable : Bool
  warnings : List String
deriving Repr, DecidableEq

/-- Dynamic engine parameters, from DynamicParameters in decisionEngine. -/
structure DynamicParameters where
  minSpreadThreshold : ℚ
  minProfitThreshold : ℚ
  maxSlippage : ℚ
  optimalTradeSize : ℚ
  riskTolerance : ℚ
deriving Repr, DecidableEq

/-- Execution outcome record kept in the in-memory history, from
ExecutionRecord in decisionEngine. -/
structure ExecutionRecord where
  timestamp : ℚ
  opportunityId : String
  score : ℚ
  predictedProfit : ℚ
  actualProfit : ℚ
  success : Bool
  error : Option String
  features : OpportunityFeatures
deriving Repr, DecidableEq

/-- Default parameters built in the DecisionEngine constructor from the
config defaults: minSpreadThreshold 0.005, minProfitThreshold 0.1,
maxSlippage 0.01, defaultTradeAmount 1000, riskTolerance 0.5. -/
def defaultParameters : DynamicParameters :=
  { minSpreadThreshold := 5/1000
    minProfitThreshold := 1/10
    maxSlippage := 1/100
    optimalTradeSize := 1000
    riskTolerance := 1/2 }

/-- JavaScript Math.round: round half toward positive infinity. -/
def jsRound (q : ℚ) : ℤ := ⌊q + 1/2⌋

/-- DecisionEngine.scoreSpread: min(100, (spreadPercentage / 0.03) * 100). -/
def scoreSpread (spreadPercentage : ℚ) : ℚ :=
  min 100 (spreadPercentage / (3/100) * 100)

/-- DecisionEngine.scoreLiquidity: ratio of liquidity to 20 times the
optimal trade size, scaled to 100 and capped. -/
def scoreLiquidity (p : DynamicParameters) (liquidity : ℚ) : ℚ :=
  min 100 (liquidity / (p.optimalTradeSize * 20) * 100)

/-- DecisionEngine.scoreProfit: multiple of the minimum profit threshold,
scaled by 25 and capped at 100. -/
def scoreProfit (p : DynamicParameters) (profit : ℚ) : ℚ :=
  min 100 (profit / p.minProfitThreshold * 25)

/-- DecisionEngine.scoreVolatility: max(0, 100 - volatility * 1000). -/
def scoreVolatility (volatility : ℚ) : ℚ :=
  max 0 (100 - volatility * 1000)

/-- DecisionEngine.scoreGasEfficiency: min(100, ratio * 10). -/
def scoreGasEfficiency (ratio : ℚ) : ℚ :=
  min 100 (ratio * 10)

/-- Whether the pattern list occurs at the head of the other list. -/
def charsLeadMatch : List Char → List Char → Bool
  | [], _ => true
  | _ :: _, [] => false
  | a :: as, b :: bs => a == b && charsLeadMatch as bs

/-- DecisionEngine.shouldExecute: the four-check decision gate. -/
def shouldExecute (p : DynamicParameters) (score : OpportunityScore)
    (risk : RiskProfile) : Bool :=
  if score.overall < 60 then false
  else if !risk.isAcceptable then false
  else if score.confidence < 7/10 then false
  else if score.features.estimatedProfit < p.minProfitThreshold then false
  else true

/-- Whether the pattern occurs as a contiguous run inside the other list,
modelling the JavaScript String.prototype.includes semantics. -/
def charsOccur (pat : List Char) : List Char → Bool
  | [] => pat.isEmpty
  | b :: bs => charsLeadMatch pat (b :: bs) || charsOccur pat bs

/-- JavaScript s.includes(pat) on strings. -/
def strOccursIn (pat s : String) : Bool := charsOccur pat.toList s.toList

/-- DecisionEngine.scoreHistoricalSuccess: success rate (times 100) of past
executions whose opportunity id mentions both pool ids, or a neutral 50 when
no such history exists. -/
def scoreHistoricalSuccess (executionHistory : List ExecutionRecord)
    (opportunity : ArbitrageOpportunity) : ℚ :=
  let history := executionHistory.filter fun r =>
    strOccursIn opportunity.poolA.poolId r.opportunityId &&
    strOccursIn opportunity.poolB.poolId r.opportunityId
  if history.length = 0 then 50
  else ((history.filter fun r => r.success).length : ℚ) / (history.length : ℚ) * 100

/-- DecisionEngine.calculateVolatility: normalized price divergence between
the two pools. -/
def calculateVolatility (opportunity : ArbitrageOpportunity) : ℚ :=
  |opportunity.poolA.priceA - opportunity.poolB.priceA| / opportunity.poolA.priceA

/-- DecisionEngine.extractFeatures; the source reads Date.now for the age,
modelled by the explicit now argument. -/
def extractFeatures (now : ℚ) (opportunity : ArbitrageOpportunity) :
    OpportunityFeatures :=
  { spreadPercentage := opportunity.spreadPercentage
    estimatedProfit := opportunity.estimatedProfit
    liquidity := min opportunity.poolA.liquidityA opportunity.poolB.liquidityA
    volatility := calculateVolatility opportunity
    profitToGasRatio := opportunity.estimatedProfit / opportunity.gasEstimate
    age := now - opportunity.createdAt }

/-- DecisionEngine.calculateConfidence: starts at 1.0, multiplied by 0.8
when liquidity is below the optimal trade size and by 0.9 when the
opportunity is older than 10 seconds. -/
def calculateConfidence (p : DynamicParameters)
    (features : OpportunityFeatures) : ℚ :=
  let confidence : ℚ := 1
  let confidence :=
    if features.liquidity < p.optimalTradeSize then confidence * (8/10) else confidence
  let confidence :=
    if features.age > 10000 then confidence * (9/10) else confidence
  confidence

/-- DecisionEngine.scoreOpportunity: weighted combination of the six
sub-scores, overall rounded to the nearest integer. -/
def scoreOpportunity (p : DynamicParameters)
    (executionHistory : List ExecutionRecord) (now : ℚ)
    (opportunity : ArbitrageOpportunity) : OpportunityScore :=
  let features := extractFeatures now opportunity
  let spreadScore := scoreSpread features.spreadPercentage
  let liquidityScore := scoreLiquidity p features.liquidity
  let profitScore := scoreProfit p features.estimatedProfit
  let volatilityScore := scoreVolatility features.volatility
  let gasEfficiencyScore := scoreGasEfficiency features.profitToGasRatio
  let historicalScore := scoreHistoricalSuccess executionHistory opportunity
  let totalScore :=
    spreadScore * (20/100) + liquidityScore * (20/100) + profitScore * (25/100) +
    volatilityScore * (10/100) + gasEfficiencyScore * (15/100) +
    historicalScore * (10/100)
  { overall := (jsRound totalScore : ℚ)
    spread := spreadScore
    liquidity := liquidityScore
    profit := profitScore
    risk := 100 - totalScore
    confidence := calculateConfidence p features
    features := features }

/-- DecisionEngine.getHistoricalOptimalSize: 0 when no successful trade is
recorded, otherwise the current optimal trade size parameter (the token
arguments are unused in the source as well). -/
def getHistoricalOptimalSize (p : DynamicParameters)
    (executionHistory : List ExecutionRecord) (_tokenA _tokenB : String) : ℚ :=
  let relevantTrades := executionHistory.filter fun r => r.success
  if relevantTrades.length = 0 then 0 else p.optimalTradeSize

/-- DecisionEngine.optimizeTradeSize: configured size capped at 5 percent
of each pools liquidity, blended with the historical optimal when that is
positive, floored. -/
def optimizeTradeSize (p : DynamicParameters)
    (executionHistory : List ExecutionRecord)
    (opportunity : ArbitrageOpportunity) : ℤ :=
  let optimalSize := p.optimalTradeSize
  let maxSafeSize := min (opportunity.poolA.liquidityA * (5/100))
    (opportunity.poolB.liquidityA * (5/100))
  let optimalSize := min optimalSize maxSafeSize
  let historicalOptimal := getHistoricalOptimalSize p executionHistory
    opportunity.poolA.tokenA opportunity.poolB.tokenB
  let optimalSize :=
    if historicalOptimal > 0 then (optimalSize + historicalOptimal) / 2
    else optimalSize
  ⌊optimalSize⌋

/-- Mutable DecisionEngine learning state: the in-memory execution history
and the dynamic parameters. -/
structure TunerState where
  executionHistory : List ExecutionRecord
  parameters : DynamicParameters
deriving Repr, DecidableEq

/-- JavaScript slice(-50): the most recent 50 entries of a chronologically
ordered list (all of them when fewer than 50 exist). -/
def lastFifty (l : List ExecutionRecord) : List ExecutionRecord :=
  l.drop (l.length - 50)

/-- DecisionEngine.optimizeParameters: adjust risk tolerance from the
recent success rate and the minimum-profit threshold from the mean profit
of recent successful profitable trades. -/
def optimizeParameters (s : TunerState) : DynamicParameters :=
  if s.executionHistory.length < 10 then s.parameters
  else
    let recentHistory := lastFifty s.executionHistory
    let successRate :=
      ((recentHistory.filter fun r => r.success).length : ℚ) /
        (recentHistory.length : ℚ)
    let successfulTrades := recentHistory.filter fun r =>
      r.success && decide ((0:ℚ) < r.actualProfit)
    let avgProfit :=
      if successfulTrades.length > 0 then
        (successfulTrades.map fun r => r.actualProfit).sum /
          (successfulTrades.length : ℚ)
      else 0
    let p := s.parameters
    let riskTolerance :=
      if successRate > 8/10 then min (7/10) (p.riskTolerance + 5/100)
      else if successRate < 5/10 then max (3/10) (p.riskTolerance - 5/100)
      else p.riskTolerance
    let minProfitThreshold :=
      if avgProfit > p.minProfitThreshold * 2 then p.minProfitThreshold * (11/10)
      else if avgProfit < p.minProfitThreshold * (5/10) then
        p.minProfitThreshold * (9/10)
      else p.minProfitThreshold
    { p with riskTolerance := riskTolerance,
             minProfitThreshold := minProfitThreshold }

/-- Outcome argument of DecisionEngine.recordExecution. -/
structure TradeOutcome where
  success : Bool
  profit : Option ℚ
  error : Option String
deriving Repr, DecidableEq

/-- DecisionEngine.recordExecution: append an outcome record to the history
and run the parameter tuner after every 10th record. -/
def recordExecution (s : TunerState) (now : ℚ)
    (opportunity : ArbitrageOpportunity) (score : OpportunityScore)
    (result : TradeOutcome) : TunerState :=
  let record : ExecutionRecord :=
    { timestamp := now
      opportunityId := opportunity.id
      score := score.overall
      predictedProfit := opportunity.estimatedProfit
      actualProfit := result.profit.getD 0
      success := result.success
      error := result.error
      features := score.features }
  let executionHistory := s.executionHistory ++ [record]
  let parameters :=
    if executionHistory.length % 10 = 0 then
      optimizeParameters
        { executionHistory := executionHistory, parameters := s.parameters }
    else s.parameters
  { executionHistory := executionHistory, parameters := parameters }

/-- JavaScript number with the non-finite values that arise from division
by zero; only the operations used by assessGasRisk are modelled. -/
inductive JsNum where
  | fin (q : ℚ)
  | posInf
  | negInf
  | nan
deriving Repr, DecidableEq

/-- JavaScript division of two finite numbers: a positive number divided by
zero is +Infinity, a negative one is -Infinity, and 0/0 is NaN. -/
def jsDivQ (a b : ℚ) : JsNum :=
  if b = 0 then
    (if 0 < a then JsNum.posInf else if a < 0 then JsNum.negInf else JsNum.nan)
  else JsNum.fin (a / b)

/-- JavaScript multiplication by a finite constant. -/
def jsMulC (x : JsNum) (c : ℚ) : JsNum :=
  match x with
  | JsNum.fin a => JsNum.fin (a * c)
  | JsNum.posInf =>
      if 0 < c then JsNum.posInf else if c < 0 then JsNum.negInf else JsNum.nan
  | JsNum.negInf =>
      if 0 < c then JsNum.negInf else if c < 0 then JsNum.posInf else JsNum.nan
  | JsNum.nan => JsNum.nan

/-- JavaScript Math.min with a finite first argument: NaN propagates,
+Infinity loses, -Infinity wins. -/
def jsMinC (c : ℚ) (x : JsNum) : JsNum :=
  match x with
  | JsNum.fin a => JsNum.fin (min c a)
  | JsNum.posInf => JsNum.fin c
  | JsNum.negInf => JsNum.negInf
  | JsNum.nan => JsNum.nan

/-- DecisionEngine.assessGasRisk: min(100, (gasEstimate / estimatedProfit)
* 100), with no guard on the sign of the profit. -/
def assessGasRisk (opportunity : ArbitrageOpportunity) : JsNum :=
  let gasToProfit := jsDivQ opportunity.gasEstimate opportunity.estimatedProfit
  jsMinC 100 (jsMulC gasToProfit 100)

/-- Environment-configured ExecutionEngine limits (defaults 10 and 1000). -/
structure EngineLimits where
  maxDailyLoss : ℚ
  maxPositionSize : ℚ
deriving Repr, DecidableEq

/-- ExecutionEngine.MAX_CONSECUTIVE_FAILURES. -/
def maxConsecutiveFailures : ℕ := 5

/-- Mutable ExecutionEngine state fields. -/
structure EngineState where
  isShutdown : Bool
  consecutiveFailures : ℕ
  dailyLoss : ℚ
  lastResetTime : ℚ
  executing : Bool
deriving Repr, DecidableEq

/-- The four safety warnings; the message text carries no decision data and
is kept abstract. -/
inductive SafetyWarning where
  | circuitBreaker
  | dailyLossLimit
  | positionTooLarge
  | shutdownActive
deriving Repr, DecidableEq

/-- Safety check result, from SafetyCheck in types.ts. -/
structure SafetyCheck where
  passed : Bool
  dailyLossLimit : Bool
  positionSizeLimit : Bool
  consecutiveFailures : Bool
  circuitBreakerActive : Bool
  warnings : List SafetyWarning
deriving Repr, DecidableEq

/-- ExecutionEngine.checkSafety: the safety gate consulted before every
execution attempt. -/
def checkSafety (limits : EngineLimits) (s : EngineState) (tradeSize : ℚ) :
    SafetyCheck :=
  let circuitBreakerActive := decide (maxConsecutiveFailures ≤ s.consecutiveFailures)
  let dailyLossExceeded := decide (limits.maxDailyLoss ≤ s.dailyLoss)
  let positionTooLarge := decide (limits.maxPositionSize < tradeSize)
  let warnings :=
    (if circuitBreakerActive then [SafetyWarning.circuitBreaker] else []) ++
    (if dailyLossExceeded then [SafetyWarning.dailyLossLimit] else []) ++
    (if positionTooLarge then [SafetyWarning.positionTooLarge] else []) ++
    (if s.isShutdown then [SafetyWarning.shutdownActive] else [])
  { passed := !circuitBreakerActive && !dailyLossExceeded &&
      !positionTooLarge && !s.isShutdown
    dailyLossLimit := !dailyLossExceeded
    positionSizeLimit := !positionTooLarge
    consecutiveFailures := !circuitBreakerActive
    circuitBreakerActive := circuitBreakerActive
    warnings := warnings }

/-- Simulation result, from SimulationResult in types.ts. -/
structure SimulationResult where
  success : Bool
  estimatedProfit : ℚ
  estimatedGas : ℚ
  estimatedSlippage : ℚ
  error : Option String
deriving Repr, DecidableEq

/-- Execution (submit) result, from ExecutionResult in types.ts. -/
structure ExecutionResult where
  success : Bool
  transactionHash : Option String
  profit : Option ℚ
  gasCost : Option ℚ
  error : Option String
deriving Repr, DecidableEq

/-- Outcome of the external dry-run call consumed by simulateTransaction;
none models a thrown exception caught by its catch block. -/
structure DryRunOutcome where
  statusSuccess : Bool
  statusError : Option String
  computationCost : ℕ
  storageCost : ℕ
deriving Repr, DecidableEq

/-- ExecutionEngine.simulateTransaction: wraps the external dry run; every
branch fills estimatedProfit with the constant 0 (the profit parse is an
unimplemented TODO in the source). -/
def simulateTransaction : Option DryRunOutcome → SimulationResult
  | none =>
      { success := false, estimatedProfit := 0, estimatedGas := 0,
        estimatedSlippage := 0, error := some "Simulation error" }
  | some dryRun =>
      if !dryRun.statusSuccess then
        { success := false, estimatedProfit := 0, estimatedGas := 0,
          estimatedSlippage := 0,
          error := some (dryRun.statusError.getD "Simulation failed") }
      else
        let gasCost :=
          ((dryRun.computationCost + dryRun.storageCost : ℕ) : ℚ) / 1000000000
        { success := true, estimatedProfit := 0, estimatedGas := gasCost,
          estimatedSlippage := 0, error := none }

/-- Structured result of one executeArbitrage call: which stage it ended
at.  Build, simulate and submit are external calls whose outcomes are
inputs of the step function; a stage is reached only when its outcome can
influence the result. -/
inductive ExecOutcome where
  | busy
  | safetyRejected (check : SafetyCheck)
  | simulationFailed (error : Option String)
  | unprofitableSimulation (estimatedProfit : ℚ)
  | executed (result : ExecutionResult)
deriving Repr, DecidableEq

/-- ExecutionEngine.resetDailyLossIfNeeded: zero the loss counter once 24
hours have elapsed since the last reset. -/
def resetDailyLossIfNeeded (now : ℚ) (s : EngineState) : EngineState :=
  let hoursSinceReset := (now - s.lastResetTime) / (1000 * 60 * 60)
  if 24 ≤ hoursSinceReset then { s with dailyLoss := 0, lastResetTime := now }
  else s

/-- ExecutionEngine.executeArbitrage as a state transition.  The external
simulate and submit outcomes are inputs; endTime is the clock value at the
finally block, which always runs resetDailyLossIfNeeded (except on the
early busy return, which precedes the try block in the source). -/
def executeArbitrage (limits : EngineLimits) (s : EngineState)
    (tradeSize : ℚ) (simulation : SimulationResult)
    (result : ExecutionResult) (endTime : ℚ) : ExecOutcome × EngineState :=
  if s.executing then (ExecOutcome.busy, s)
  else
    let s1 : EngineState := { s with executing := true }
    let safetyCheck := checkSafety limits s1 tradeSize
    let body : ExecOutcome × EngineState :=
      if !safetyCheck.passed then
        (ExecOutcome.safetyRejected safetyCheck, s1)
      else if !simulation.success then
        (ExecOutcome.simulationFailed simulation.error,
          { s1 with consecutiveFailures := s1.consecutiveFailures + 1 })
      else if simulation.estimatedProfit ≤ 0 then
        (ExecOutcome.unprofitableSimulation simulation.estimatedProfit, s1)
      else if result.success then
        (ExecOutcome.executed result, { s1 with consecutiveFailures := 0 })
      else
        (ExecOutcome.executed result,
          { s1 with consecutiveFailures := s1.consecutiveFailures + 1,
                    dailyLoss := s1.dailyLoss + result.gasCost.getD 0 })
    (body.1, resetDailyLossIfNeeded endTime { body.2 with executing := false })

/-- Positivity of the parameters the scoring functions divide by; holds at
initialization and is preserved by the tuner. -/
def ParamsPositive (p : DynamicParameters) : Prop :=
  0 < p.minProfitThreshold ∧ 0 < p.optimalTradeSize

/-- Arithmetic mean of a list of rationals (0 for the empty list). -/
def listMean (l : List ℚ) : ℚ := l.sum / (l.length : ℚ)

/-- Spread sub-score as the spec sentence for C6 words it: scales linearly
to 100 at 3 times the minimum spread threshold. -/
def scoreSpreadSpec (minSpreadThreshold spreadPercentage : ℚ) : ℚ :=
  min 100 (spreadPercentage / (3 * minSpreadThreshold) * 100)

/-- Parameter adjustment as the amended C8 claim words it: success rate
over the most recent 50 outcomes, mean realized profit over the successful
positive-profit outcomes among them (0 when none), then the four threshold
adjustments. -/
def tuneAmended (history : List ExecutionRecord) (p : DynamicParameters) :
    DynamicParameters :=
  let recent := lastFifty history
  let successRate := ((recent.countP fun r => r.success) : ℚ) / (recent.length : ℚ)
  let profitable := recent.filter fun r =>
    r.success && decide ((0:ℚ) < r.actualProfit)
  let avgProfit :=
    if profitable.isEmpty then 0
    else listMean (profitable.map fun r => r.actualProfit)
  let riskTolerance :=
    if successRate > 8/10 then min (7/10) (p.riskTolerance + 5/100)
    else if successRate < 5/10 then max (3/10) (p.riskTolerance - 5/100)
    else p.riskTolerance
  let minProfitThreshold :=
    if avgProfit > p.minProfitThreshold * 2 then p.minProfitThreshold * (11/10)
    else if avgProfit < p.minProfitThreshold * (5/10) then
      p.minProfitThreshold * (9/10)
    else p.minProfitThreshold
  { p with riskTolerance := riskTolerance,
           minProfitThreshold := minProfitThreshold }

/-- Concrete pool snapshot used by witnesses and counterexamples. -/
def samplePool (poolId : String) (priceA liquidityA : ℚ) : PoolData :=
  { poolId := poolId, tokenA := "SUI", tokenB := "USDC", priceA := priceA,
    priceB := 1, liquidityA := liquidityA, liquidityB := liquidityA,
    lastUpdate := 0 }

/-- Opportunity with a negative spread percentage but all the feature
validity conditions the C2 claim lists. -/
def negSpreadOpportunity : ArbitrageOpportunity :=
  { id := "arb_p1_p2_0", poolA := samplePool "p1" 1 0,
    poolB := samplePool "p2" 1 0, spread := 3/100,
    spreadPercentage := -3/100, estimatedProfit := 0, tradeAmount := 1000,
    gasEstimate := 1, createdAt := 0 }

/-- Opportunity with a negative estimated profit, for the gas-risk guard. -/
def negProfitOpportunity : ArbitrageOpportunity :=
  { id := "arb_p1_p2_0", poolA := samplePool "p1" 1 100,
    poolB := samplePool "p2" 1 100, spread := 0, spreadPercentage := 0,
    estimatedProfit := -1, tradeAmount := 1000, gasEstimate := 10,
    createdAt := 0 }

/-- Opportunity with a zero estimated profit, for the gas-risk guard. -/
def zeroProfitOpportunity : ArbitrageOpportunity :=
  { id := "arb_p1_p2_0", poolA := samplePool "p1" 1 100,
    poolB := samplePool "p2" 1 100, spread := 0, spreadPercentage := 0,
    estimatedProfit := 0, tradeAmount := 1000, gasEstimate := 10,
    createdAt := 0 }

/-- Benign opportunity over two small pools (liquidity 100 each). -/
def smallPoolsOpportunity : ArbitrageOpportunity :=
  { id := "arb_p1_p2_0", poolA := samplePool "p1" 1 100,
    poolB := samplePool "p2" 1 100, spread := 0, spreadPercentage := 0,
    estimatedProfit := 1, tradeAmount := 1000, gasEstimate := 1/1000,
    createdAt := 0 }

/-- Feature vector used by sample records. -/
def sampleFeatures : OpportunityFeatures :=
  { spreadPercentage := 1/100, estimatedProfit := 1, liquidity := 100000,
    volatility := 0, profitToGasRatio := 1000, age := 0 }

/-- Successful past execution with realized profit 0.3. -/
def successRecord : ExecutionRecord :=
  { timestamp := 0, opportunityId := "arb_p1_p2_0", score := 80,
    predictedProfit := 1, actualProfit := 3/10, success := true,
    error := none, features := sampleFeatures }

/-- Failed past execution with realized profit 0. -/
def failRecord : ExecutionRecord :=
  { timestamp := 0, opportunityId := "arb_p1_p2_0", score := 80,
    predictedProfit := 1, actualProfit := 0, success := false,
    error := some "fail", features := sampleFeatures }

/-- Nine recorded outcomes: one profitable success and eight failures. -/
def historyNine : List ExecutionRecord :=
  [successRecord, failRecord, failRecord, failRecord, failRecord,
   failRecord, failRecord, failRecord, failRecord]

/-- Tuner state holding nine records and the default parameters. -/
def tunerStateNine : TunerState :=
  { executionHistory := historyNine, parameters := defaultParameters }

/-- Score record fed to recordExecution in witnesses. -/
def sampleScore : OpportunityScore :=
  { overall := 80, spread := 50, liquidity := 50, profit := 50, risk := 20,
    confidence := 1, features := sampleFeatures }

/-- Failed trade outcome fed to recordExecution. -/
def failOutcome : TradeOutcome :=
  { success := false, profit := none, error := some "fail" }

/-- Default ExecutionEngine limits: daily loss 10 dollars, position 1000. -/
def defaultLimits : EngineLimits :=
  { maxDailyLoss := 10, maxPositionSize := 1000 }

/-- Engine state with the shutdown flag set and accumulated loss 3. -/
def shutdownState : EngineState :=
  { isShutdown := true, consecutiveFailures := 0, dailyLoss := 3,
    lastResetTime := 0, executing := false }

/-- Engine state that passes the safety gate with accumulated loss 3. -/
def cleanState : EngineState :=
  { isShutdown := false, consecutiveFailures := 0, dailyLoss := 3,
    lastResetTime := 0, executing := false }

/-- Engine state that passes the safety gate with zero loss. -/
def freshState : EngineState :=
  { isShutdown := false, consecutiveFailures := 0, dailyLoss := 0,
    lastResetTime := 0, executing := false }

/-- External simulation outcome that failed. -/
def failedSimulation : SimulationResult :=
  { success := false, estimatedProfit := 0, estimatedGas := 0,
    estimatedSlippage := 0, error := some "err" }

/-- External simulation outcome reporting success and positive profit. -/
def okSimulation : SimulationResult :=
  { success := true, estimatedProfit := 5, estimatedGas := 1/100,
    estimatedSlippage := 0, error := none }

/-- External submit outcome reporting success. -/
def okExecution : ExecutionResult :=
  { success := true, transactionHash := some "0xabc", profit := some 5,
    gasCost := some (1/100), error := none }

/-- Successful dry run consumed by simulateTransaction. -/
def successDryRun : DryRunOutcome :=
  { statusSuccess := true, statusError := none,
    computationCost := 1000000, storageCost := 500000 }

lemma scoreSpread_mem (s : ℚ) (hs : 0 ≤ s) :
    0 ≤ scoreSpread s ∧ scoreSpread s ≤ 100 := by
  unfold scoreSpread
  exact ⟨le_min (by norm_num)
    (mul_nonneg (div_nonneg hs (by norm_num)) (by norm_num)), min_le_left _ _⟩

lemma scoreLiquidity_mem (p : DynamicParameters) (l : ℚ)
    (hT : 0 < p.optimalTradeSize) (hl : 0 ≤ l) :
    0 ≤ scoreLiquidity p l ∧ scoreLiquidity p l ≤ 100 := by
  unfold scoreLiquidity
  refine ⟨le_min (by norm_num) ?_, min_le_left _ _⟩
  exact mul_nonneg (div_nonneg hl (by nlinarith)) (by norm_num)

lemma scoreProfit_mem (p : DynamicParameters) (q : ℚ)
    (hM : 0 < p.minProfitThreshold) (hq : 0 ≤ q) :
    0 ≤ scoreProfit p q ∧ scoreProfit p q ≤ 100 := by
  unfold scoreProfit
  refine ⟨le_min (by norm_num) ?_, min_le_left _ _⟩
  exact mul_nonneg (div_nonneg hq hM.le) (by norm_num)

lemma scoreVolatility_mem (v : ℚ) (hv : 0 ≤ v) :
    0 ≤ scoreVolatility v ∧ scoreVolatility v ≤ 100 := by
  unfold scoreVolatility
  exact ⟨le_max_left _ _, max_le (by norm_num) (by nlinarith)⟩

lemma scoreGasEfficiency_mem (r : ℚ) (hr : 0 ≤ r) :
    0 ≤ scoreGasEfficiency r ∧ scoreGasEfficiency r ≤ 100 := by
  unfold scoreGasEfficiency
  exact ⟨le_min (by norm_num) (mul_nonneg hr (by norm_num)), min_le_left _ _⟩

lemma scoreHistoricalSuccess_mem (hist : List ExecutionRecord)
    (opportunity : ArbitrageOpportunity) :
    0 ≤ scoreHistoricalSuccess hist opportunity ∧
      scoreHistoricalSuccess hist opportunity ≤ 100 := by
  unfold scoreHistoricalSuccess
  by_cases hlen :
      (hist.filter fun r =>
        strOccursIn opportunity.poolA.poolId r.opportunityId &&
        strOccursIn opportunity.poolB.poolId r.opportunityId).length = 0
  · simp [hlen]
    norm_num
  · simp only [hlen, if_false]
    set h := hist.filter fun r =>
      strOccursIn opportunity.poolA.poolId r.opportunityId &&
      strOccursIn opportunity.poolB.poolId r.opportunityId with hh
    have hpos : (0:ℚ) < (h.length : ℚ) := by
      exact_mod_cast Nat.pos_of_ne_zero hlen
    have hle : ((h.filter fun r => r.success).length : ℚ) / (h.length : ℚ) ≤ 1 := by
      rw [div_le_one hpos]
      exact_mod_cast List.length_filter_le _ _
    have hge : (0:ℚ) ≤ ((h.filter fun r => r.success).length : ℚ) / (h.length : ℚ) :=
      div_nonneg (by positivity) hpos.le
    constructor
    · nlinarith
    · nlinarith

lemma calculateConfidence_cases (p : DynamicParameters)
    (f : OpportunityFeatures) :
    calculateConfidence p f = 1 ∨ calculateConfidence p f = 9/10 ∨
      calculateConfidence p f = 8/10 ∨ calculateConfidence p f = 72/100 := by
  unfold calculateConfidence
  split_ifs <;> norm_num

lemma calculateConfidence_floor (p : DynamicParameters)
    (f : OpportunityFeatures) : 7/10 ≤ calculateConfidence p f := by
  unfold calculateConfidence
  split_ifs <;> norm_num

lemma jsRound_mem (t : ℚ) (h0 : 0 ≤ t) (h1 : t ≤ 100) :
    (0:ℚ) ≤ (jsRound t : ℚ) ∧ (jsRound t : ℚ) ≤ 100 := by
  unfold jsRound
  constructor
  · have : (0:ℤ) ≤ ⌊t + 1/2⌋ := by
      apply Int.le_floor.mpr
      push_cast
      linarith
    exact_mod_cast this
  · have : ⌊t + 1/2⌋ < 101 := by
      apply Int.floor_lt.mpr
      push_cast
      linarith
    have h2 : ⌊t + 1/2⌋ ≤ 100 := by omega
    exact_mod_cast h2

lemma scoreOpportunity_overall_eq (p : DynamicParameters)
    (hist : List ExecutionRecord) (now : ℚ)
    (opportunity : ArbitrageOpportunity) :
    (scoreOpportunity p hist now opportunity).overall =
      (jsRound
        (scoreSpread (extractFeatures now opportunity).spreadPercentage * (20/100) +
         scoreLiquidity p (extractFeatures now opportunity).liquidity * (20/100) +
         scoreProfit p (extractFeatures now opportunity).estimatedProfit * (25/100) +
         scoreVolatility (extractFeatures now opportunity).volatility * (10/100) +
         scoreGasEfficiency (extractFeatures now opportunity).profitToGasRatio * (15/100) +
         scoreHistoricalSuccess hist opportunity * (10/100)) : ℚ) := rfl

lemma scoreOpportunity_confidence_eq (p : DynamicParameters)
    (hist : List ExecutionRecord) (now : ℚ)
    (opportunity : ArbitrageOpportunity) :
    (scoreOpportunity p hist now opportunity).confidence =
      calculateConfidence p (extractFeatures now opportunity) := rfl

lemma paramsPositive_default : ParamsPositive defaultParameters := by
  unfold ParamsPositive defaultParameters
  norm_num

lemma paramsPositive_optimizeParameters (s : TunerState)
    (h : ParamsPositive s.parameters) :
    ParamsPositive (optimizeParameters s) := by
  obtain ⟨h1, h2⟩ := h
  unfold ParamsPositive
  simp only [optimizeParameters]
  split_ifs <;> exact ⟨by nlinarith, h2⟩

lemma shouldExecute_of_conf (c : ℚ) (hc : 7/10 ≤ c)
    (q : DynamicParameters) (sc : OpportunityScore) (r : RiskProfile) :
    shouldExecute q { sc with confidence := c } r =
      (decide (60 ≤ sc.overall) && r.isAcceptable &&
        decide (q.minProfitThreshold ≤ sc.features.estimatedProfit)) := by
  show (if sc.overall < 60 then false
    else if !r.isAcceptable then false
    else if c < 7/10 then false
    else if sc.features.estimatedProfit < q.minProfitThreshold then false
    else true) = _
  split_ifs with h1 h2 h3 h4 <;>
    simp_all [not_lt, Bool.not_eq_true']
  linarith

/-- C1: shouldExecute is true iff all four Decision Gate checks hold --
overall score at least 60, risk acceptable, confidence at least 0.7, and
estimated profit at least the current minimum-profit threshold; if any
single check fails the result is false. -/
theorem C1_gate_conjunction (p : DynamicParameters) (s : OpportunityScore)
    (r : RiskProfile) :
    shouldExecute p s r = true ↔
      (60 ≤ s.overall ∧ r.isAcceptable = true ∧ 7/10 ≤ s.confidence ∧
        p.minProfitThreshold ≤ s.features.estimatedProfit) := by
  unfold shouldExecute
  split_ifs with h1 h2 h3 h4 <;>
    simp_all [not_lt, Bool.not_eq_true']

/-- C9: calculateConfidence only returns 1.0, 0.9, 0.8 or 0.72, all of
which are at least 0.7, so the confidence check of the Decision Gate can
never be the failing check: with a confidence produced by
calculateConfidence, shouldExecute reduces to the other three checks. -/
theorem C9_confidence_unreachable (p : DynamicParameters)
    (f : OpportunityFeatures) :
    (calculateConfidence p f = 1 ∨ calculateConfidence p f = 9/10 ∨
      calculateConfidence p f = 8/10 ∨ calculateConfidence p f = 72/100) ∧
    7/10 ≤ calculateConfidence p f ∧
    (∀ (hist : List ExecutionRecord) (now : ℚ)
        (opportunity : ArbitrageOpportunity),
      7/10 ≤ (scoreOpportunity p hist now opportunity).confidence) ∧
    (∀ (q : DynamicParameters) (sc : OpportunityScore) (r : RiskProfile),
      shouldExecute q { sc with confidence := calculateConfidence p f } r =
        (decide (60 ≤ sc.overall) && r.isAcceptable &&
          decide (q.minProfitThreshold ≤ sc.features.estimatedProfit))) :=
  ⟨calculateConfidence_cases p f, calculateConfidence_floor p f,
    fun hist now opportunity => by
      rw [scoreOpportunity_confidence_eq]
      exact calculateConfidence_floor p _,
    fun q sc r => shouldExecute_of_conf _ (calculateConfidence_floor p f) q sc r⟩

/-- C2 counterexample: an opportunity meeting every validity condition the
claim lists (profit 0, gas estimate 1, liquidity 0, volatility 0) whose
spread percentage is negative; its spread sub-score is -100 and the
overall score is -5, both outside [0,100]. -/
theorem C2_counterexample :
    (0 ≤ negSpreadOpportunity.estimatedProfit ∧
     0 < negSpreadOpportunity.gasEstimate ∧
     0 ≤ (extractFeatures 0 negSpreadOpportunity).liquidity ∧
     0 ≤ (extractFeatures 0 negSpreadOpportunity).volatility) ∧
    scoreSpread (extractFeatures 0 negSpreadOpportunity).spreadPercentage = -100 ∧
    (scoreOpportunity defaultParameters [] 0 negSpreadOpportunity).overall = -5 := by
  refine ⟨⟨by norm_num [negSpreadOpportunity], by norm_num [negSpreadOpportunity],
    ?_, ?_⟩, ?_, ?_⟩
  · norm_num [extractFeatures, negSpreadOpportunity, samplePool]
  · norm_num [extractFeatures, calculateVolatility, negSpreadOpportunity, samplePool]
  · norm_num [scoreSpread, extractFeatures, negSpreadOpportunity, samplePool]
  · norm_num [scoreOpportunity, extractFeatures, negSpreadOpportunity, samplePool,
      scoreSpread, scoreLiquidity, scoreProfit, scoreVolatility, scoreGasEfficiency,
      scoreHistoricalSuccess, calculateVolatility, defaultParameters, jsRound,
      List.filter]

/-- C2 amended: for every opportunity whose extracted features are valid --
which must also include a nonnegative spread percentage -- and for
parameters with positive minimum-profit threshold and optimal trade size
(true initially and preserved by the tuner), every sub-score lies in
[0,100], the overall score lies in [0,100] and confidence lies in [0,1]. -/
theorem C2_score_bounds (p : DynamicParameters)
    (hist : List ExecutionRecord) (now : ℚ)
    (opportunity : ArbitrageOpportunity)
    (hpar : ParamsPositive p)
    (hspread : 0 ≤ opportunity.spreadPercentage)
    (hprofit : 0 ≤ opportunity.estimatedProfit)
    (hgas : 0 < opportunity.gasEstimate)
    (hliq : 0 ≤ (extractFeatures now opportunity).liquidity)
    (hvol : 0 ≤ (extractFeatures now opportunity).volatility) :
    (0 ≤ scoreSpread (extractFeatures now opportunity).spreadPercentage ∧
      scoreSpread (extractFeatures now opportunity).spreadPercentage ≤ 100) ∧
    (0 ≤ scoreLiquidity p (extractFeatures now opportunity).liquidity ∧
      scoreLiquidity p (extractFeatures now opportunity).liquidity ≤ 100) ∧
    (0 ≤ scoreProfit p (extractFeatures now opportunity).estimatedProfit ∧
      scoreProfit p (extractFeatures now opportunity).estimatedProfit ≤ 100) ∧
    (0 ≤ scoreVolatility (extractFeatures now opportunity).volatility ∧
      scoreVolatility (extractFeatures now opportunity).volatility ≤ 100) ∧
    (0 ≤ scoreGasEfficiency (extractFeatures now opportunity).profitToGasRatio ∧
      scoreGasEfficiency (extractFeatures now opportunity).profitToGasRatio ≤ 100) ∧
    (0 ≤ scoreHistoricalSuccess hist opportunity ∧
      scoreHistoricalSuccess hist opportunity ≤ 100) ∧
    (0 ≤ (scoreOpportunity p hist now opportunity).overall ∧
      (scoreOpportunity p hist now opportunity).overall ≤ 100) ∧
    (0 ≤ (scoreOpportunity p hist now opportunity).confidence ∧
      (scoreOpportunity p hist now opportunity).confidence ≤ 1) := by
  obtain ⟨hM, hT⟩ := hpar
  have hfs : 0 ≤ (extractFeatures now opportunity).spreadPercentage := hspread
  have hfp : 0 ≤ (extractFeatures now opportunity).estimatedProfit := hprofit
  have hfr : 0 ≤ (extractFeatures now opportunity).profitToGasRatio := by
    show 0 ≤ opportunity.estimatedProfit / opportunity.gasEstimate
    exact div_nonneg hprofit hgas.le
  have hS := scoreSpread_mem _ hfs
  have hL := scoreLiquidity_mem p _ hT hliq
  have hP := scoreProfit_mem p _ hM hfp
  have hV := scoreVolatility_mem _ hvol
  have hG := scoreGasEfficiency_mem _ hfr
  have hH := scoreHistoricalSuccess_mem hist opportunity
  refine ⟨hS, hL, hP, hV, hG, hH, ?_, ?_⟩
  · rw [scoreOpportunity_overall_eq]
    exact jsRound_mem _ (by nlinarith [hS.1, hL.1, hP.1, hV.1, hG.1, hH.1])
      (by nlinarith [hS.2, hL.2, hP.2, hV.2, hG.2, hH.2])
  · rw [scoreOpportunity_confidence_eq]
    rcases calculateConfidence_cases p (extractFeatures now opportunity) with
      h | h | h | h <;> rw [h] <;> norm_num

/-- C2 witness: the bounds instantiated at a concrete benign opportunity,
the default parameters and an empty history. -/
theorem C2_score_bounds_witness :
    (0 ≤ scoreSpread (extractFeatures 0 smallPoolsOpportunity).spreadPercentage ∧
      scoreSpread (extractFeatures 0 smallPoolsOpportunity).spreadPercentage ≤ 100) ∧
    (0 ≤ scoreLiquidity defaultParameters (extractFeatures 0 smallPoolsOpportunity).liquidity ∧
      scoreLiquidity defaultParameters (extractFeatures 0 smallPoolsOpportunity).liquidity ≤ 100) ∧
    (0 ≤ scoreProfit defaultParameters (extractFeatures 0 smallPoolsOpportunity).estimatedProfit ∧
      scoreProfit defaultParameters (extractFeatures 0 smallPoolsOpportunity).estimatedProfit ≤ 100) ∧
    (0 ≤ scoreVolatility (extractFeatures 0 smallPoolsOpportunity).volatility ∧
      scoreVolatility (extractFeatures 0 smallPoolsOpportunity).volatility ≤ 100) ∧
    (0 ≤ scoreGasEfficiency (extractFeatures 0 smallPoolsOpportunity).profitToGasRatio ∧
      scoreGasEfficiency (extractFeatures 0 smallPoolsOpportunity).profitToGasRatio ≤ 100) ∧
    (0 ≤ scoreHistoricalSuccess [] smallPoolsOpportunity ∧
      scoreHistoricalSuccess [] smallPoolsOpportunity ≤ 100) ∧
    (0 ≤ (scoreOpportunity defaultParameters [] 0 smallPoolsOpportunity).overall ∧
      (scoreOpportunity defaultParameters [] 0 smallPoolsOpportunity).overall ≤ 100) ∧
    (0 ≤ (scoreOpportunity defaultParameters [] 0 smallPoolsOpportunity).confidence ∧
      (scoreOpportunity defaultParameters [] 0 smallPoolsOpportunity).confidence ≤ 1) :=
  C2_score_bounds defaultParameters [] 0 smallPoolsOpportunity
    (by constructor <;> norm_num [defaultParameters])
    (by norm_num [smallPoolsOpportunity])
    (by norm_num [smallPoolsOpportunity])
    (by norm_num [smallPoolsOpportunity])
    (by norm_num [extractFeatures, smallPoolsOpportunity, samplePool])
    (by norm_num [extractFeatures, calculateVolatility, smallPoolsOpportunity, samplePool])

/-- C5: evaluation of the unguarded gas-risk computation.  For a negative
estimated profit (gas 10, profit -1) the code produces the negative value
-1000 instead of the maximal risk 100 the claim and the spec require; for
zero profit with positive gas the IEEE division by zero happens to yield
+Infinity and hence the capped value 100; for positive profit the capped
formula applies. -/
theorem C5_gas_risk_eval :
    negProfitOpportunity.gasEstimate = 10 ∧
    negProfitOpportunity.estimatedProfit = -1 ∧
    assessGasRisk negProfitOpportunity = JsNum.fin (-1000) ∧
    assessGasRisk zeroProfitOpportunity = JsNum.fin 100 ∧
    (∀ opportunity : ArbitrageOpportunity, 0 < opportunity.estimatedProfit →
      assessGasRisk opportunity =
        JsNum.fin (min 100
          (opportunity.gasEstimate / opportunity.estimatedProfit * 100))) := by
  refine ⟨by norm_num [negProfitOpportunity], by norm_num [negProfitOpportunity],
    by norm_num [assessGasRisk, jsDivQ, jsMulC, jsMinC, negProfitOpportunity, samplePool],
    by norm_num [assessGasRisk, jsDivQ, jsMulC, jsMinC, zeroProfitOpportunity, samplePool],
    ?_⟩
  intro opportunity hpos
  unfold assessGasRisk jsDivQ jsMulC jsMinC
  rw [if_neg (by exact ne_of_gt hpos)]

/-- C6 counterexample: with the configured default minimum spread
threshold 0.005, a spread of 0.015 equals 3 times the threshold and the
claimed formula yields 100, but the code (which hard-codes 0.03) yields
50. -/
theorem C6_counterexample :
    defaultParameters.minSpreadThreshold = 5/1000 ∧
    scoreSpread (15/1000) = 50 ∧
    scoreSpreadSpec defaultParameters.minSpreadThreshold (15/1000) = 100 ∧
    scoreSpread (15/1000) ≠
      scoreSpreadSpec defaultParameters.minSpreadThreshold (15/1000) := by
  refine ⟨by norm_num [defaultParameters], by norm_num [scoreSpread],
    by norm_num [scoreSpreadSpec, defaultParameters], ?_⟩
  norm_num [scoreSpread, scoreSpreadSpec, defaultParameters]

/-- C6 amended: the spread sub-score is min(100, spread / 0.03 * 100),
independent of the configured minimum-spread threshold; it equals the
spec formula only for a threshold of exactly 0.01, and it reaches 100
exactly at a fixed 3 percent spread. -/
theorem C6_spread_score_amended (s : ℚ) :
    scoreSpread s = scoreSpreadSpec (1/100) s ∧
    (scoreSpread s = 100 ↔ 3/100 ≤ s) := by
  constructor
  · unfold scoreSpread scoreSpreadSpec
    norm_num
  · unfold scoreSpread
    rw [min_eq_left_iff]
    constructor
    · intro h
      nlinarith
    · intro h
      nlinarith

/-- C7 counterexample: pools with liquidity 100 each give a 5 percent cap
of 5, but with one successful record in the history the code blends the
capped value 5 with the historical optimal 1000 and returns 502, far above
the cap. -/
theorem C7_counterexample :
    smallPoolsOpportunity.poolA.liquidityA * (5/100) = 5 ∧
    smallPoolsOpportunity.poolB.liquidityA * (5/100) = 5 ∧
    optimizeTradeSize defaultParameters [successRecord] smallPoolsOpportunity = 502 ∧
    ¬((optimizeTradeSize defaultParameters [successRecord] smallPoolsOpportunity : ℚ) ≤
        smallPoolsOpportunity.poolA.liquidityA * (5/100)) := by
  have h : optimizeTradeSize defaultParameters [successRecord] smallPoolsOpportunity = 502 := by
    norm_num [optimizeTradeSize, getHistoricalOptimalSize, defaultParameters,
      smallPoolsOpportunity, samplePool, successRecord, List.filter]
  refine ⟨by norm_num [smallPoolsOpportunity, samplePool],
    by norm_num [smallPoolsOpportunity, samplePool], h, ?_⟩
  rw [h]
  norm_num [smallPoolsOpportunity, samplePool]

/-- C7 amended: the trade size is the floor of the configured target
capped at 5 percent of the smaller liquidity, blended with the historical
optimal when that is positive; the result is guaranteed not to exceed the
5 percent cap on either pool only when no successful execution is
recorded (historical-optimal size 0) -- with a successful record the blend
can exceed the cap. -/
theorem C7_trade_size_amended (p : DynamicParameters)
    (hist : List ExecutionRecord) (opportunity : ArbitrageOpportunity) :
    ((hist.filter fun r => r.success) = [] →
      ((optimizeTradeSize p hist opportunity : ℚ) ≤
          opportunity.poolA.liquidityA * (5/100) ∧
        (optimizeTradeSize p hist opportunity : ℚ) ≤
          opportunity.poolB.liquidityA * (5/100))) ∧
    (0 < getHistoricalOptimalSize p hist
        opportunity.poolA.tokenA opportunity.poolB.tokenB →
      optimizeTradeSize p hist opportunity =
        ⌊(min p.optimalTradeSize
            (min (opportunity.poolA.liquidityA * (5/100))
              (opportunity.poolB.liquidityA * (5/100))) +
          getHistoricalOptimalSize p hist
            opportunity.poolA.tokenA opportunity.poolB.tokenB) / 2⌋) := by
  constructor
  · intro hempty
    have hzero : getHistoricalOptimalSize p hist
        opportunity.poolA.tokenA opportunity.poolB.tokenB = 0 := by
      unfold getHistoricalOptimalSize
      rw [hempty]
      simp
    have heq : optimizeTradeSize p hist opportunity =
        ⌊min p.optimalTradeSize
          (min (opportunity.poolA.liquidityA * (5/100))
            (opportunity.poolB.liquidityA * (5/100)))⌋ := by
      unfold optimizeTradeSize
      rw [hzero]
      norm_num
    have hfl : (⌊min p.optimalTradeSize
        (min (opportunity.poolA.liquidityA * (5/100))
          (opportunity.poolB.liquidityA * (5/100)))⌋ : ℚ) ≤
        min (opportunity.poolA.liquidityA * (5/100))
          (opportunity.poolB.liquidityA * (5/100)) :=
      le_trans (Int.floor_le _) (min_le_right _ _)
    rw [heq]
    exact ⟨le_trans hfl (min_le_left _ _), le_trans hfl (min_le_right _ _)⟩
  · intro hposhist
    unfold optimizeTradeSize
    simp [hposhist]

/-- C7 witness: the cap bound instantiated at an empty history and the
concrete small-pool opportunity. -/
theorem C7_trade_size_amended_witness :
    (optimizeTradeSize defaultParameters [] smallPoolsOpportunity : ℚ) ≤
        smallPoolsOpportunity.poolA.liquidityA * (5/100) ∧
    (optimizeTradeSize defaultParameters [] smallPoolsOpportunity : ℚ) ≤
        smallPoolsOpportunity.poolB.liquidityA * (5/100) :=
  (C7_trade_size_amended defaultParameters [] smallPoolsOpportunity).1 rfl

lemma optimizeParameters_eq_tuneAmended (s : TunerState)
    (hlen : 10 ≤ s.executionHistory.length) :
    optimizeParameters s = tuneAmended s.executionHistory s.parameters := by
  unfold optimizeParameters tuneAmended
  rw [if_neg (by omega)]
  by_cases hp : (lastFifty s.executionHistory).filter
      (fun r => r.success && decide ((0:ℚ) < r.actualProfit)) = []
  · simp [hp, listMean, List.countP_eq_length_filter]
  · have hlen2 : 0 < ((lastFifty s.executionHistory).filter
        (fun r => r.success && decide ((0:ℚ) < r.actualProfit))).length :=
      List.length_pos.mpr hp
    simp [hp, hlen2, listMean, List.countP_eq_length_filter]

lemma recordExecution_params_eq (s : TunerState) (now : ℚ)
    (opportunity : ArbitrageOpportunity) (score : OpportunityScore)
    (result : TradeOutcome) :
    (recordExecution s now opportunity score result).parameters =
      (if (recordExecution s now opportunity score result).executionHistory.length % 10 = 0 then
        optimizeParameters
          { executionHistory :=
              (recordExecution s now opportunity score result).executionHistory,
            parameters := s.parameters }
      else s.parameters) := rfl

lemma recordExecution_hist_len (s : TunerState) (now : ℚ)
    (opportunity : ArbitrageOpportunity) (score : OpportunityScore)
    (result : TradeOutcome) :
    (recordExecution s now opportunity score result).executionHistory.length =
      s.executionHistory.length + 1 := by
  simp [recordExecution]

lemma paramsPositive_recordExecution (s : TunerState) (now : ℚ)
    (opportunity : ArbitrageOpportunity) (score : OpportunityScore)
    (result : TradeOutcome) (h : ParamsPositive s.parameters) :
    ParamsPositive (recordExecution s now opportunity score result).parameters := by
  rw [recordExecution_params_eq]
  split_ifs
  · exact paramsPositive_optimizeParameters _ h
  · exact h

/-- C8 counterexample: after the 10th recorded outcome (one success with
realized profit 0.3 and nine failures, default parameters), the mean
realized profit over the most recent 50 outcomes is 0.03, which is below
half the 0.1 threshold, so the claim prescribes lowering the threshold to
0.09; the code instead averages only the profitable successes (mean 0.3),
judges it above twice the threshold, and raises the threshold to 0.11. -/
theorem C8_counterexample :
    listMean ((lastFifty (recordExecution tunerStateNine 0 smallPoolsOpportunity
        sampleScore failOutcome).executionHistory).map
      fun r => r.actualProfit) = 3/100 ∧
    (3/100 : ℚ) < defaultParameters.minProfitThreshold * (5/10) ∧
    defaultParameters.minProfitThreshold * (9/10) = 9/100 ∧
    (recordExecution tunerStateNine 0 smallPoolsOpportunity sampleScore
        failOutcome).parameters.minProfitThreshold = 11/100 ∧
    (11/100 : ℚ) ≠ 9/100 := by
  refine ⟨?_, by norm_num [defaultParameters], by norm_num [defaultParameters], ?_, by norm_num⟩
  · norm_num [recordExecution, tunerStateNine, historyNine, lastFifty, listMean,
      successRecord, failRecord, failOutcome, sampleScore, smallPoolsOpportunity]
  · norm_num [recordExecution, tunerStateNine, historyNine, optimizeParameters, lastFifty,
      defaultParameters, smallPoolsOpportunity, samplePool, sampleScore, failOutcome,
      successRecord, failRecord, sampleFeatures, List.filter]

/-- C8 amended: after every 10th recorded outcome, and only then, the
parameters are replaced by the tuned values; the tuning computes the
success rate over the most recent 50 outcomes and the mean realized profit
over the successful positive-profit outcomes among them (0 when none), and
applies exactly the four adjustments of the claim. -/
theorem C8_tuner_amended (s : TunerState) (now : ℚ)
    (opportunity : ArbitrageOpportunity) (score : OpportunityScore)
    (result : TradeOutcome) :
    ((recordExecution s now opportunity score result).executionHistory.length % 10 ≠ 0 →
      (recordExecution s now opportunity score result).parameters = s.parameters) ∧
    ((recordExecution s now opportunity score result).executionHistory.length % 10 = 0 →
      (recordExecution s now opportunity score result).parameters =
        tuneAmended
          (recordExecution s now opportunity score result).executionHistory
          s.parameters) := by
  constructor
  · intro hne
    rw [recordExecution_params_eq, if_neg hne]
  · intro hyes
    rw [recordExecution_params_eq, if_pos hyes]
    have hpos : 0 < (recordExecution s now opportunity score result).executionHistory.length := by
      rw [recordExecution_hist_len]
      omega
    have hlen : 10 ≤ (recordExecution s now opportunity score result).executionHistory.length :=
      Nat.le_of_dvd hpos (Nat.dvd_of_mod_eq_zero hyes)
    exact optimizeParameters_eq_tuneAmended _ hlen

/-- C8 witness: the amended tuning applied at the concrete 10th outcome. -/
theorem C8_tuner_amended_witness :
    (recordExecution tunerStateNine 0 smallPoolsOpportunity sampleScore
        failOutcome).parameters =
      tuneAmended
        (recordExecution tunerStateNine 0 smallPoolsOpportunity sampleScore
          failOutcome).executionHistory
        tunerStateNine.parameters :=
  (C8_tuner_amended tunerStateNine 0 smallPoolsOpportunity sampleScore failOutcome).2
    (by norm_num [recordExecution, tunerStateNine, historyNine])

lemma checkSafety_exec_irrel (limits : EngineLimits) (s : EngineState)
    (b : Bool) (tradeSize : ℚ) :
    checkSafety limits { s with executing := b } tradeSize =
      checkSafety limits s tradeSize := rfl

lemma resetDailyLoss_cf (now : ℚ) (s : EngineState) :
    (resetDailyLossIfNeeded now s).consecutiveFailures = s.consecutiveFailures := by
  simp only [resetDailyLossIfNeeded]
  split_ifs <;> rfl

lemma resetDailyLoss_dl (now : ℚ) (s : EngineState) :
    (resetDailyLossIfNeeded now s).dailyLoss =
      (if 24 ≤ (now - s.lastResetTime) / (1000 * 60 * 60) then 0 else s.dailyLoss) := by
  simp only [resetDailyLossIfNeeded]
  split_ifs <;> rfl

lemma executeArbitrage_safety_reject (limits : EngineLimits) (s : EngineState)
    (tradeSize : ℚ) (simulation : SimulationResult) (result : ExecutionResult)
    (endTime : ℚ) (hexec : s.executing = false)
    (hfail : (checkSafety limits s tradeSize).passed = false) :
    executeArbitrage limits s tradeSize simulation result endTime =
      (ExecOutcome.safetyRejected (checkSafety limits s tradeSize),
        resetDailyLossIfNeeded endTime { s with executing := false }) := by
  unfold executeArbitrage
  rw [if_neg (by simp [hexec])]
  simp only [checkSafety_exec_irrel]
  simp [hfail]

lemma executeArbitrage_sim_fail (limits : EngineLimits) (s : EngineState)
    (tradeSize : ℚ) (simulation : SimulationResult) (result : ExecutionResult)
    (endTime : ℚ) (hexec : s.executing = false)
    (hpass : (checkSafety limits s tradeSize).passed = true)
    (hsim : simulation.success = false) :
    executeArbitrage limits s tradeSize simulation result endTime =
      (ExecOutcome.simulationFailed simulation.error,
        resetDailyLossIfNeeded endTime
          { s with consecutiveFailures := s.consecutiveFailures + 1,
                   executing := false }) := by
  unfold executeArbitrage
  rw [if_neg (by simp [hexec])]
  simp only [checkSafety_exec_irrel]
  simp [hpass, hsim]

lemma executeArbitrage_unprofitable (limits : EngineLimits) (s : EngineState)
    (tradeSize : ℚ) (simulation : SimulationResult) (result : ExecutionResult)
    (endTime : ℚ) (hexec : s.executing = false)
    (hpass : (checkSafety limits s tradeSize).passed = true)
    (hsim : simulation.success = true)
    (hprofit : simulation.estimatedProfit ≤ 0) :
    executeArbitrage limits s tradeSize simulation result endTime =
      (ExecOutcome.unprofitableSimulation simulation.estimatedProfit,
        resetDailyLossIfNeeded endTime { s with executing := false }) := by
  unfold executeArbitrage
  rw [if_neg (by simp [hexec])]
  simp only [checkSafety_exec_irrel]
  simp [hpass, hsim, hprofit]

/-- C3 counterexample: with the shutdown flag set the gate trips and the
attempt is rejected, yet when the call ends more than 24 hours after the
last reset the finally block zeroes the daily-loss counter, so the loss
counter is not left unmodified. -/
theorem C3_counterexample :
    (checkSafety defaultLimits shutdownState 1).passed = false ∧
    shutdownState.dailyLoss = 3 ∧
    (executeArbitrage defaultLimits shutdownState 1 okSimulation okExecution
        90000000).2.dailyLoss = 0 ∧
    (executeArbitrage defaultLimits shutdownState 1 okSimulation okExecution
        90000000).2.dailyLoss ≠ shutdownState.dailyLoss := by
  have h : (executeArbitrage defaultLimits shutdownState 1 okSimulation okExecution
      90000000).2.dailyLoss = 0 := by
    norm_num [executeArbitrage, checkSafety, resetDailyLossIfNeeded, defaultLimits,
      shutdownState, okSimulation, okExecution, maxConsecutiveFailures]
  refine ⟨by norm_num [checkSafety, defaultLimits, shutdownState, maxConsecutiveFailures],
    by norm_num [shutdownState], h, ?_⟩
  rw [h]
  norm_num [shutdownState]

/-- C3 amended: the safety gate passes iff the consecutive-failure count is
below 5, the cumulative loss is below the daily cap, the trade size is at
most the max position size and the shutdown flag is unset; when the gate
trips, the call returns a structured safety rejection without consulting
the simulate or submit outcomes and without modifying the failure counter,
and the loss counter is untouched by the rejection itself -- it changes
only through the scheduled 24-hour rollover that runs at the end of every
attempt. -/
theorem C3_safety_gate (limits : EngineLimits) (s : EngineState)
    (tradeSize : ℚ) (simulation : SimulationResult) (result : ExecutionResult)
    (endTime : ℚ) (hexec : s.executing = false) :
    ((checkSafety limits s tradeSize).passed = true ↔
      (s.consecutiveFailures < maxConsecutiveFailures ∧
       s.dailyLoss < limits.maxDailyLoss ∧
       tradeSize ≤ limits.maxPositionSize ∧ s.isShutdown = false)) ∧
    ((checkSafety limits s tradeSize).passed = false →
      ((executeArbitrage limits s tradeSize simulation result endTime).1 =
          ExecOutcome.safetyRejected (checkSafety limits s tradeSize) ∧
       (∀ (sim2 : SimulationResult) (res2 : ExecutionResult),
          executeArbitrage limits s tradeSize sim2 res2 endTime =
            executeArbitrage limits s tradeSize simulation result endTime) ∧
       (executeArbitrage limits s tradeSize simulation result
          endTime).2.consecutiveFailures = s.consecutiveFailures ∧
       (executeArbitrage limits s tradeSize simulation result
          endTime).2.dailyLoss =
          (if 24 ≤ (endTime - s.lastResetTime) / (1000 * 60 * 60) then 0
           else s.dailyLoss))) := by
  constructor
  · unfold checkSafety maxConsecutiveFailures
    simp only [Bool.and_eq_true, Bool.not_eq_true', decide_eq_false_iff_not,
      not_le, not_lt, Bool.not_eq_true]
    tauto
  · intro hfail
    have heq := executeArbitrage_safety_reject limits s tradeSize simulation
      result endTime hexec hfail
    refine ⟨by rw [heq], fun sim2 res2 => ?_, ?_, ?_⟩
    · rw [executeArbitrage_safety_reject limits s tradeSize sim2 res2 endTime
        hexec hfail, heq]
    · rw [heq]
      exact resetDailyLoss_cf _ _
    · rw [heq]
      exact resetDailyLoss_dl _ _

/-- C3 witness: the rejection behavior instantiated at the concrete
shutdown state, with an end time inside the 24-hour window. -/
theorem C3_safety_gate_witness :
    (executeArbitrage defaultLimits shutdownState 1 okSimulation okExecution
        1000).1 = ExecOutcome.safetyRejected (checkSafety defaultLimits shutdownState 1) ∧
    (executeArbitrage defaultLimits shutdownState 1 okSimulation okExecution
        1000).2.consecutiveFailures = shutdownState.consecutiveFailures :=
  let h := (C3_safety_gate defaultLimits shutdownState 1 okSimulation
      okExecution 1000 rfl).2
    (by norm_num [checkSafety, defaultLimits, shutdownState, maxConsecutiveFailures])
  ⟨h.1, h.2.2.1⟩

/-- C4 counterexample: a state that passes the gate, a failed simulation,
and a call ending more than 24 hours after the last reset: the failure
counter is incremented as claimed, but the daily-loss counter is zeroed by
the rollover rather than left unchanged. -/
theorem C4_counterexample :
    (checkSafety defaultLimits cleanState 1).passed = true ∧
    failedSimulation.success = false ∧
    cleanState.dailyLoss = 3 ∧
    (executeArbitrage defaultLimits cleanState 1 failedSimulation okExecution
        90000000).2.dailyLoss = 0 ∧
    (executeArbitrage defaultLimits cleanState 1 failedSimulation okExecution
        90000000).2.dailyLoss ≠ cleanState.dailyLoss := by
  have h : (executeArbitrage defaultLimits cleanState 1 failedSimulation okExecution
      90000000).2.dailyLoss = 0 := by
    norm_num [executeArbitrage, checkSafety, resetDailyLossIfNeeded, defaultLimits,
      cleanState, failedSimulation, okExecution, maxConsecutiveFailures]
  refine ⟨by norm_num [checkSafety, defaultLimits, cleanState, maxConsecutiveFailures],
    rfl, by norm_num [cleanState], h, ?_⟩
  rw [h]
  norm_num [cleanState]

/-- C4 amended: when the gate passes and the simulation is non-success,
the failure counter is incremented by exactly 1; when the simulation
succeeds without positive profit, the attempt aborts with the failure
counter unchanged; in both cases the daily-loss counter is untouched by
the abort itself and changes only through the scheduled 24-hour rollover
at the end of the call. -/
theorem C4_simulation_counters (limits : EngineLimits) (s : EngineState)
    (tradeSize : ℚ) (simulation : SimulationResult) (result : ExecutionResult)
    (endTime : ℚ) (hexec : s.executing = false)
    (hpass : (checkSafety limits s tradeSize).passed = true) :
    (simulation.success = false →
      ((executeArbitrage limits s tradeSize simulation result endTime).1 =
          ExecOutcome.simulationFailed simulation.error ∧
       (executeArbitrage limits s tradeSize simulation result
          endTime).2.consecutiveFailures = s.consecutiveFailures + 1 ∧
       (executeArbitrage limits s tradeSize simulation result
          endTime).2.dailyLoss =
          (if 24 ≤ (endTime - s.lastResetTime) / (1000 * 60 * 60) then 0
           else s.dailyLoss))) ∧
    (simulation.success = true → simulation.estimatedProfit ≤ 0 →
      ((executeArbitrage limits s tradeSize simulation result endTime).1 =
          ExecOutcome.unprofitableSimulation simulation.estimatedProfit ∧
       (executeArbitrage limits s tradeSize simulation result
          endTime).2.consecutiveFailures = s.consecutiveFailures ∧
       (executeArbitrage limits s tradeSize simulation result
          endTime).2.dailyLoss =
          (if 24 ≤ (endTime - s.lastResetTime) / (1000 * 60 * 60) then 0
           else s.dailyLoss))) := by
  constructor
  · intro hsim
    have heq := executeArbitrage_sim_fail limits s tradeSize simulation result
      endTime hexec hpass hsim
    refine ⟨by rw [heq], ?_, ?_⟩
    · rw [heq]
      exact resetDailyLoss_cf _ _
    · rw [heq]
      exact resetDailyLoss_dl _ _
  · intro hsim hprofit
    have heq := executeArbitrage_unprofitable limits s tradeSize simulation
      result endTime hexec hpass hsim hprofit
    refine ⟨by rw [heq], ?_, ?_⟩
    · rw [heq]
      exact resetDailyLoss_cf _ _
    · rw [heq]
      exact resetDailyLoss_dl _ _

/-- C4 witness: the failed-simulation accounting at a concrete state, with
an end time inside the 24-hour window. -/
theorem C4_simulation_counters_witness :
    (executeArbitrage defaultLimits cleanState 1 failedSimulation okExecution
        1000).1 = ExecOutcome.simulationFailed failedSimulation.error ∧
    (executeArbitrage defaultLimits cleanState 1 failedSimulation okExecution
        1000).2.consecutiveFailures = cleanState.consecutiveFailures + 1 :=
  let h := ((C4_simulation_counters defaultLimits cleanState 1 failedSimulation
      okExecution 1000 rfl
      (by norm_num [checkSafety, defaultLimits, cleanState,
        maxConsecutiveFailures])).1) rfl
  ⟨h.1, h.2.1⟩

lemma simulateTransaction_profit_zero (d : Option DryRunOutcome) :
    (simulateTransaction d).estimatedProfit = 0 := by
  cases d with
  | none => rfl
  | some dryRun =>
    simp only [simulateTransaction]
    split_ifs <;> rfl

/-- C10: every simulation result produced by simulateTransaction carries
estimatedProfit 0, so an executeArbitrage call fed by simulateTransaction
never reaches the on-chain submission: whenever the safety gate passes and
the simulation succeeds, the attempt aborts at the profit-verification
step. -/
theorem C10_submission_unreachable (d : Option DryRunOutcome)
    (limits : EngineLimits) (s : EngineState) (tradeSize : ℚ)
    (result : ExecutionResult) (endTime : ℚ) :
    (simulateTransaction d).estimatedProfit = 0 ∧
    (∀ r : ExecutionResult,
      (executeArbitrage limits s tradeSize (simulateTransaction d) result
        endTime).1 ≠ ExecOutcome.executed r) ∧
    (s.executing = false → (checkSafety limits s tradeSize).passed = true →
      (simulateTransaction d).success = true →
      (executeArbitrage limits s tradeSize (simulateTransaction d) result
        endTime).1 = ExecOutcome.unprofitableSimulation 0) := by
  have hzero := simulateTransaction_profit_zero d
  refine ⟨hzero, ?_, ?_⟩
  · intro r
    by_cases hexec : s.executing = true
    · unfold executeArbitrage
      rw [if_pos hexec]
      simp
    · have hexec2 : s.executing = false := by
        exact Bool.not_eq_true _ ▸ (by simpa using hexec)
      by_cases hpass : (checkSafety limits s tradeSize).passed = true
      · by_cases hsim : (simulateTransaction d).success = true
        · rw [executeArbitrage_unprofitable limits s tradeSize _ result endTime
            hexec2 hpass hsim (by rw [hzero])]
          simp
        · have hsim2 : (simulateTransaction d).success = false := by
            simpa using hsim
          rw [executeArbitrage_sim_fail limits s tradeSize _ result endTime
            hexec2 hpass hsim2]
          simp
      · have hfail : (checkSafety limits s tradeSize).passed = false := by
          simpa using hpass
        rw [executeArbitrage_safety_reject limits s tradeSize _ result endTime
          hexec2 hfail]
        simp
  · intro hexec hpass hsim
    rw [executeArbitrage_unprofitable limits s tradeSize _ result endTime
      hexec hpass hsim (by rw [hzero])]
    rw [hzero]

/-- C10 witness: a concrete successful dry run against a clean engine state
ends at the unprofitable-simulation abort. -/
theorem C10_submission_unreachable_witness :
    (executeArbitrage defaultLimits freshState 1
        (simulateTransaction (some successDryRun)) okExecution 1000).1 =
      ExecOutcome.unprofitableSimulation 0 :=
  (C10_submission_unreachable (some successDryRun) defaultLimits freshState 1
      okExecution 1000).2.2 rfl
    (by norm_num [checkSafety, defaultLimits, freshState, maxConsecutiveFailures])
    (by norm_num [simulateTransaction, successDryRun])

end DeepSentinel
